import Mathlib

/-! UsbSrvClient: connection handling and call dispatch

A shallow embedding of `interfaces/innerkits/native/src/usb_srv_client.cpp`.

The client holds one field that matters here, `proxy_`, the handle of the remote
USB service.  Every remote effect of the client is recorded in a trace: the two
steps of the service locator (`GetSystemAbilityManager`, `CheckSystemAbility`)
and every call made through `proxy_`.  What the outside world answers is given
by an environment `Env` whose answers may depend on the whole trace so far, so
that a theorem quantified over `Env` holds for every behaviour of the locator
and of the remote service.

The model is sequential: `mutex_` is not modelled.  Log output (`USB_HILOGx`)
is not part of the state.
-/

namespace UsbSrvClient

/-! ## Data model -/

/-- Identity of an `IRemoteObject`.  `iface_cast<IUsbSrv>` wraps the object in a
`UsbServerProxy` (registered by `delegator_` in `usb_server_proxy.h`), so a proxy
is identified with the remote object it wraps. -/
abbrev RemoteObject := Nat

/-- The constants the client code uses by name.  Their values are set in headers
that are not part of the sources at hand (`usb_errors.h`, `errors.h`,
`usb_common.h`, `system_ability_definition.h`), so they are parameters. -/
structure Consts where
  UEC_OK : Int
  UEC_INTERFACE_NO_INIT : Int
  UEC_INTERFACE_GET_SYSTEM_ABILITY_MANAGER_FAILED : Int
  UEC_INTERFACE_GET_USB_SERVICE_FAILED : Int
  ERR_INVALID_VALUE : Int
  USB_ENDPOINT_DIR_IN : Int
  USB_ENDPOINT_DIR_OUT : Int
  USB_MANAGER_USB_SERVICE_ID : Int
deriving DecidableEq, Repr

/-- The two failure codes of `Connect` differ from the success code. -/
def Consts.ConnectCodesOk (c : Consts) : Prop :=
  c.UEC_INTERFACE_GET_SYSTEM_ABILITY_MANAGER_FAILED ≠ c.UEC_OK ∧
  c.UEC_INTERFACE_GET_USB_SERVICE_FAILED ≠ c.UEC_OK

instance (c : Consts) : Decidable c.ConnectCodesOk := by
  unfold Consts.ConnectCodesOk; exact inferInstance

/-- A sample assignment of the constants, used to evaluate the model on concrete
inputs.  Only `UEC_OK = 0` and the two endpoint directions are meant to be the
values of the real headers; the other numbers are placeholders. -/
def sampleConsts : Consts where
  UEC_OK := 0
  UEC_INTERFACE_NO_INIT := 1005
  UEC_INTERFACE_GET_SYSTEM_ABILITY_MANAGER_FAILED := 1014
  UEC_INTERFACE_GET_USB_SERVICE_FAILED := 1015
  ERR_INVALID_VALUE := 22
  USB_ENDPOINT_DIR_IN := 128
  USB_ENDPOINT_DIR_OUT := 0
  USB_MANAGER_USB_SERVICE_ID := 4201

/-- The HDI pair `UsbDev = {busNum, devAddr}`. -/
structure UsbDev where
  busNum : Nat
  devAddr : Nat
deriving DecidableEq, Repr

/-- The HDI pair `UsbPipe = {interfaceId, endpointId}`. -/
structure UsbPipe where
  interfaceId : Int
  endpointId : Int
deriving DecidableEq, Repr

/-- Modelled from the spec: class `UsbDevice` (`usb_device.h`) is missing; a device
is identified by its bus number and device address, read by `GetBusNum` and
`GetDevAddr`.  Descriptor data is not used by the client code. -/
structure UsbDevice where
  busNum : Nat
  devAddr : Nat
deriving DecidableEq, Repr

/-- Modelled from the spec: class `USBDevicePipe` (`usb_device_pipe.h`) is missing;
a pipe is the pair of bus number and device address, with plain getters and
setters. -/
structure USBDevicePipe where
  busNum : Nat
  devAddr : Nat
deriving DecidableEq, Repr

/-- Modelled from the spec: class `UsbInterface` is missing; an interface is
`(interfaceId, alternateSetting)`. -/
structure UsbInterface where
  id : Int
  alternateSetting : Int
deriving DecidableEq, Repr

/-- Modelled from the spec: class `USBConfig` is missing; only `GetId` is used. -/
structure USBConfig where
  id : Int
deriving DecidableEq, Repr

/-- Modelled from the spec: class `USBEndpoint` is missing; an endpoint is
`(interfaceId, address, direction)`.  The direction is kept as the integer that
`GetDirection` returns, so that values other than IN and OUT can be stated. -/
structure USBEndpoint where
  interfaceId : Int
  address : Int
  direction : Int
deriving DecidableEq, Repr

/-- The fields of `UsbCtrlTransfer`, passed to the service untouched. -/
structure UsbCtrlTransfer where
  requestType : Int
  requestCmd : Int
  value : Int
  index : Int
  timeout : Int
deriving DecidableEq, Repr

/-- Modelled from the spec: class `UsbPort` is missing; a port is
`(portId, supportedModes, currentRole)`. -/
structure UsbPort where
  id : Int
  supportedModes : Int
  currentRole : Int
deriving DecidableEq, Repr

/-- Modelled from the spec: class `UsbRequest` (`usb_request.h`) is missing; a
request is bound to a pipe and an endpoint and holds the client-context buffer
and the payload buffer, with plain getters and setters. -/
structure UsbRequest where
  pipe : USBDevicePipe
  ep : USBEndpoint
  clientData : List Nat
  reqData : List Nat
deriving DecidableEq, Repr

/-- Setter `UsbRequest::SetPipe`. -/
def UsbRequest.SetPipe (req : UsbRequest) (pipe : USBDevicePipe) : UsbRequest :=
  { req with pipe := pipe }

/-- Setter `UsbRequest::SetClientData`. -/
def UsbRequest.SetClientData (req : UsbRequest) (data : List Nat) : UsbRequest :=
  { req with clientData := data }

/-- Setter `UsbRequest::SetReqData`. -/
def UsbRequest.SetReqData (req : UsbRequest) (data : List Nat) : UsbRequest :=
  { req with reqData := data }

/-- Conversion of an integer to `uint8_t`, as at a `uint8_t` parameter of
`UsbServerProxy`. -/
def toUInt8 (x : Int) : Nat := (x % 256).toNat

/-- Conversion of an integer to `int32_t` (two's complement wrap), as when the
`int64_t` timeout of `PipeRequestWait` is passed to `RequestWait`. -/
def toInt32 (x : Int) : Int := (x + 2147483648) % 4294967296 - 2147483648

/-! ## Remote calls, trace and environment -/

/-- A call made through `proxy_`, with the arguments as the proxy receives them
(the methods of `UsbServerProxy`).  Reference parameters carry the value they
have when the call is made. -/
inductive Call where
  | OpenDevice (busNum devAddr : Nat)
  | HasRight (deviceName : String)
  | RequestRight (deviceName : String)
  | RemoveRight (deviceName : String)
  | GetDevices (deviceList : List UsbDevice)
  | GetCurrentFunctions (funcs : Int)
  | SetCurrentFunctions (funcs : Int)
  | UsbFunctionsFromString (funcs : String)
  | UsbFunctionsToString (funcs : Int)
  | GetPorts (ports : List UsbPort)
  | GetSupportedModes (portId : Int) (supportedModes : Int)
  | SetPortRole (portId powerRole dataRole : Int)
  | ClaimInterface (busNum devAddr interfaceid : Nat)
  | ReleaseInterface (busNum devAddr interfaceid : Nat)
  | BulkTransferRead (dev : UsbDev) (pipe : UsbPipe) (vdata : List Nat) (timeout : Int)
  | BulkTransferWrite (dev : UsbDev) (pipe : UsbPipe) (vdata : List Nat) (timeout : Int)
  | ControlTransfer (dev : UsbDev) (ctrl : UsbCtrlTransfer) (vdata : List Nat)
  | SetActiveConfig (busNum devAddr configIndex : Nat)
  | SetInterface (busNum devAddr interfaceid altIndex : Nat)
  | RequestQueue (dev : UsbDev) (pipe : UsbPipe) (cData vData : List Nat)
  | RequestWait (dev : UsbDev) (timeout : Int) (cData vData : List Nat)
  | RequestCancel (busNum devAddr interfaceid endpointId : Nat)
  | Close (busNum devAddr : Nat)
deriving DecidableEq, Repr

/-- What a remote call gives back: the returned status (or value), and the new
contents of whatever reference parameters the call has. -/
structure Reply where
  status : Int
  vdata : List Nat := []
  cdata : List Nat := []
  value : Int := 0
  text : String := ""
  devices : List UsbDevice := []
  ports : List UsbPort := []
deriving DecidableEq, Repr

/-- One effect of the client on the outside world. -/
inductive Event where
  | GetSystemAbilityManager
  | CheckSystemAbility (said : Int)
  | Remote (obj : RemoteObject) (call : Call)
deriving DecidableEq, Repr

/-- The outside world.  Every answer may depend on the trace of all earlier
events. -/
structure Env where
  /-- Whether `GetSystemAbilityManager()` returns a non-null manager. -/
  samAvailable : List Event → Bool
  /-- The result of `sm->CheckSystemAbility(id)`; `none` is `nullptr`. -/
  checkSystemAbility : List Event → Int → Option RemoteObject
  /-- The answer of the remote service to a call made through a proxy. -/
  reply : List Event → RemoteObject → Call → Reply

/-- The state: the field `proxy_` of the client, the remote objects on which the
client death recipient `deathRecipient_` is registered, and the trace of events
so far (oldest first). -/
structure World where
  proxy_ : Option RemoteObject
  recipients : List RemoteObject
  trace : List Event
deriving DecidableEq, Repr

/-- Append an event to the trace. -/
def World.log (w : World) (e : Event) : World :=
  { w with trace := w.trace ++ [e] }

/-- Is the event the first step of a service lookup. -/
def Event.isGetSam : Event → Bool
  | .GetSystemAbilityManager => true
  | _ => false

/-- Is the event a `CheckSystemAbility` query. -/
def Event.isCheck : Event → Bool
  | .CheckSystemAbility _ => true
  | _ => false

/-- Is the event a call made through `proxy_`. -/
def Event.isRemote : Event → Bool
  | .Remote _ _ => true
  | _ => false

/-- Number of service lookups in a trace.  A lookup is one run of the locate
sequence of `Connect` (lines 58 to 67), which starts with exactly one
`GetSystemAbilityManager` query. -/
def lookups (tr : List Event) : Nat := tr.countP Event.isGetSam

/-- Number of `CheckSystemAbility` queries in a trace. -/
def checks (tr : List Event) : Nat := tr.countP Event.isCheck

/-- Number of calls made through `proxy_` in a trace. -/
def remoteCalls (tr : List Event) : Nat := tr.countP Event.isRemote

/-! ## Connection management -/

/-- `UsbSrvClient::Connect` (lines 52 to 71). -/
def Connect (c : Consts) (env : Env) (w : World) : Int × World :=
  match w.proxy_ with
  | some _ => (c.UEC_OK, w)
  | none =>
    let w1 := w.log Event.GetSystemAbilityManager
    if env.samAvailable w.trace = false then
      (c.UEC_INTERFACE_GET_SYSTEM_ABILITY_MANAGER_FAILED, w1)
    else
      let w2 := w1.log (Event.CheckSystemAbility c.USB_MANAGER_USB_SERVICE_ID)
      match env.checkSystemAbility w1.trace c.USB_MANAGER_USB_SERVICE_ID with
      | none => (c.UEC_INTERFACE_GET_USB_SERVICE_FAILED, w2)
      | some remoteObject => (c.UEC_OK, { w2 with proxy_ := some remoteObject })

/-- The remote object behind a proxy, `proxy_->AsObject()`. -/
def AsObject (proxy : RemoteObject) : Option RemoteObject := some proxy

/-- `UsbSrvClient::ResetProxy` (lines 73 to 82).  The argument is the result of
`remote.promote()`; `none` is `nullptr`. -/
def ResetProxy (w : World) (remote : Option RemoteObject) : World :=
  match w.proxy_ with
  | none => w
  | some proxy =>
    match AsObject proxy with
    | none => w
    | some serviceRemote =>
      if some serviceRemote = remote then
        { w with recipients := w.recipients.erase serviceRemote, proxy_ := none }
      else w

/-- A call through `proxy_`: the environment answers and the call is logged. -/
def callRemote (env : Env) (w : World) (obj : RemoteObject) (call : Call) : Reply × World :=
  (env.reply w.trace obj call, w.log (Event.Remote obj call))

/-! ## Operations that connect first

Each of them starts with `RETURN_IF_WITH_RET(Connect() != UEC_OK, ...)` and then
calls through `proxy_`.  The result is `none` when the code would dereference a
null `proxy_`. -/

/-- `UsbSrvClient::OpenDevice` (lines 94 to 107). -/
def OpenDevice (c : Consts) (env : Env) (w : World) (device : UsbDevice) (pipe : USBDevicePipe) :
    Option (Int × USBDevicePipe × World) :=
  let r := Connect c env w
  if r.1 ≠ c.UEC_OK then some (c.UEC_INTERFACE_NO_INIT, pipe, r.2)
  else
    match r.2.proxy_ with
    | none => none
    | some obj =>
      let a := callRemote env r.2 obj (Call.OpenDevice device.busNum device.devAddr)
      if a.1.status ≠ c.UEC_OK then some (a.1.status, pipe, a.2)
      else some (c.UEC_OK, { pipe with busNum := device.busNum, devAddr := device.devAddr }, a.2)

/-- `UsbSrvClient::HasRight` (lines 109 to 118). -/
def HasRight (c : Consts) (env : Env) (w : World) (deviceName : String) : Option (Int × World) :=
  let r := Connect c env w
  if r.1 ≠ c.UEC_OK then some (c.UEC_INTERFACE_NO_INIT, r.2)
  else
    match r.2.proxy_ with
    | none => none
    | some obj =>
      let a := callRemote env r.2 obj (Call.HasRight deviceName)
      some (a.1.status, a.2)

/-- `UsbSrvClient::RequestRight` (lines 120 to 128). -/
def RequestRight (c : Consts) (env : Env) (w : World) (deviceName : String) : Option (Int × World) :=
  let r := Connect c env w
  if r.1 ≠ c.UEC_OK then some (c.UEC_INTERFACE_NO_INIT, r.2)
  else
    match r.2.proxy_ with
    | none => none
    | some obj =>
      let a := callRemote env r.2 obj (Call.RequestRight deviceName)
      some (a.1.status, a.2)

/-- `UsbSrvClient::RemoveRight` (lines 130 to 138). -/
def RemoveRight (c : Consts) (env : Env) (w : World) (deviceName : String) : Option (Int × World) :=
  let r := Connect c env w
  if r.1 ≠ c.UEC_OK then some (c.UEC_INTERFACE_NO_INIT, r.2)
  else
    match r.2.proxy_ with
    | none => none
    | some obj =>
      let a := callRemote env r.2 obj (Call.RemoveRight deviceName)
      some (a.1.status, a.2)

/-- `UsbSrvClient::GetDevices` (lines 140 to 149).  The second component is the
device list after the call. -/
def GetDevices (c : Consts) (env : Env) (w : World) (deviceList : List UsbDevice) :
    Option (Int × List UsbDevice × World) :=
  let r := Connect c env w
  if r.1 ≠ c.UEC_OK then some (c.UEC_INTERFACE_NO_INIT, deviceList, r.2)
  else
    match r.2.proxy_ with
    | none => none
    | some obj =>
      let a := callRemote env r.2 obj (Call.GetDevices deviceList)
      some (a.1.status, a.1.devices, a.2)

/-- `UsbSrvClient::GetCurrentFunctions` (lines 151 to 160).  The second component
is `funcs` after the call. -/
def GetCurrentFunctions (c : Consts) (env : Env) (w : World) (funcs : Int) :
    Option (Int × Int × World) :=
  let r := Connect c env w
  if r.1 ≠ c.UEC_OK then some (c.UEC_INTERFACE_NO_INIT, funcs, r.2)
  else
    match r.2.proxy_ with
    | none => none
    | some obj =>
      let a := callRemote env r.2 obj (Call.GetCurrentFunctions funcs)
      some (a.1.status, a.1.value, a.2)

/-- `UsbSrvClient::SetCurrentFunctions` (lines 161 to 171).  The early return at
line 163 returns `false`, which the `int32_t` return type turns into 0. -/
def SetCurrentFunctions (c : Consts) (env : Env) (w : World) (funcs : Int) : Option (Int × World) :=
  let r := Connect c env w
  if r.1 ≠ c.UEC_OK then some (0, r.2)
  else
    match r.2.proxy_ with
    | none => none
    | some obj =>
      let a := callRemote env r.2 obj (Call.SetCurrentFunctions funcs)
      if a.1.status ≠ c.UEC_OK then some (a.1.status, a.2)
      else some (a.1.status, a.2)

/-- `UsbSrvClient::UsbFunctionsFromString` (lines 173 to 179). -/
def UsbFunctionsFromString (c : Consts) (env : Env) (w : World) (funcs : String) :
    Option (Int × World) :=
  let r := Connect c env w
  if r.1 ≠ c.UEC_OK then some (c.UEC_INTERFACE_NO_INIT, r.2)
  else
    match r.2.proxy_ with
    | none => none
    | some obj =>
      let a := callRemote env r.2 obj (Call.UsbFunctionsFromString funcs)
      some (a.1.status, a.2)

/-- `UsbSrvClient::UsbFunctionsToString` (lines 181 to 188). -/
def UsbFunctionsToString (c : Consts) (env : Env) (w : World) (funcs : Int) :
    Option (String × World) :=
  let r := Connect c env w
  if r.1 ≠ c.UEC_OK then some ("", r.2)
  else
    match r.2.proxy_ with
    | none => none
    | some obj =>
      let a := callRemote env r.2 obj (Call.UsbFunctionsToString funcs)
      some (a.1.text, a.2)

/-- `UsbSrvClient::GetPorts` (lines 190 to 199). -/
def GetPorts (c : Consts) (env : Env) (w : World) (usbports : List UsbPort) :
    Option (Int × List UsbPort × World) :=
  let r := Connect c env w
  if r.1 ≠ c.UEC_OK then some (c.UEC_INTERFACE_NO_INIT, usbports, r.2)
  else
    match r.2.proxy_ with
    | none => none
    | some obj =>
      let a := callRemote env r.2 obj (Call.GetPorts usbports)
      some (a.1.status, a.1.ports, a.2)

/-- `UsbSrvClient::GetSupportedModes` (lines 201 to 210).  The second component is
`result` after the call. -/
def GetSupportedModes (c : Consts) (env : Env) (w : World) (portId : Int) (result : Int) :
    Option (Int × Int × World) :=
  let r := Connect c env w
  if r.1 ≠ c.UEC_OK then some (c.UEC_INTERFACE_NO_INIT, result, r.2)
  else
    match r.2.proxy_ with
    | none => none
    | some obj =>
      let a := callRemote env r.2 obj (Call.GetSupportedModes portId result)
      some (a.1.status, a.1.value, a.2)

/-- `UsbSrvClient::SetPortRole` (lines 212 to 221). -/
def SetPortRole (c : Consts) (env : Env) (w : World) (portId powerRole dataRole : Int) :
    Option (Int × World) :=
  let r := Connect c env w
  if r.1 ≠ c.UEC_OK then some (c.UEC_INTERFACE_NO_INIT, r.2)
  else
    match r.2.proxy_ with
    | none => none
    | some obj =>
      let a := callRemote env r.2 obj (Call.SetPortRole portId powerRole dataRole)
      some (a.1.status, a.2)

/-! ## Operations that only test `proxy_`

Each of them starts with `RETURN_IF_WITH_RET(proxy_ == nullptr, ...)`; none of
them calls `Connect`. -/

/-- `UsbSrvClient::ClaimInterface` (lines 223 to 231).  The parameter `force` is
not used by the body. -/
def ClaimInterface (c : Consts) (env : Env) (w : World) (pipe : USBDevicePipe)
    (interface : UsbInterface) (_force : Bool) : Int × World :=
  match w.proxy_ with
  | none => (c.UEC_INTERFACE_NO_INIT, w)
  | some obj =>
    let a := callRemote env w obj (Call.ClaimInterface pipe.busNum pipe.devAddr (toUInt8 interface.id))
    (a.1.status, a.2)

/-- `UsbSrvClient::ReleaseInterface` (lines 232 to 240). -/
def ReleaseInterface (c : Consts) (env : Env) (w : World) (pipe : USBDevicePipe)
    (interface : UsbInterface) : Int × World :=
  match w.proxy_ with
  | none => (c.UEC_INTERFACE_NO_INIT, w)
  | some obj =>
    let a := callRemote env w obj (Call.ReleaseInterface pipe.busNum pipe.devAddr (toUInt8 interface.id))
    (a.1.status, a.2)

/-- `UsbSrvClient::BulkTransfer` (lines 241 to 259).  The second component is
`vdata` after the call: a read fills it, a write leaves it (the proxy takes it
as `const`). -/
def BulkTransfer (c : Consts) (env : Env) (w : World) (pipe : USBDevicePipe)
    (endpoint : USBEndpoint) (vdata : List Nat) (timeout : Int) : Int × List Nat × World :=
  match w.proxy_ with
  | none => (c.UEC_INTERFACE_NO_INIT, vdata, w)
  | some obj =>
    let tdev : UsbDev := { busNum := pipe.busNum, devAddr := pipe.devAddr }
    let tpipe : UsbPipe := { interfaceId := endpoint.interfaceId, endpointId := endpoint.address }
    if c.USB_ENDPOINT_DIR_IN = endpoint.direction then
      let a := callRemote env w obj (Call.BulkTransferRead tdev tpipe vdata timeout)
      (a.1.status, a.1.vdata, a.2)
    else if c.USB_ENDPOINT_DIR_OUT = endpoint.direction then
      let a := callRemote env w obj (Call.BulkTransferWrite tdev tpipe vdata timeout)
      (a.1.status, vdata, a.2)
    else (c.ERR_INVALID_VALUE, vdata, w)

/-- `UsbSrvClient::ControlTransfer` (lines 260 to 270). -/
def ControlTransfer (c : Consts) (env : Env) (w : World) (pipe : USBDevicePipe)
    (ctrl : UsbCtrlTransfer) (vdata : List Nat) : Int × List Nat × World :=
  match w.proxy_ with
  | none => (c.UEC_INTERFACE_NO_INIT, vdata, w)
  | some obj =>
    let dev : UsbDev := { busNum := pipe.busNum, devAddr := pipe.devAddr }
    let a := callRemote env w obj (Call.ControlTransfer dev ctrl vdata)
    (a.1.status, a.1.vdata, a.2)

/-- `UsbSrvClient::SetConfiguration` (lines 271 to 276). -/
def SetConfiguration (c : Consts) (env : Env) (w : World) (pipe : USBDevicePipe)
    (config : USBConfig) : Int × World :=
  match w.proxy_ with
  | none => (c.UEC_INTERFACE_NO_INIT, w)
  | some obj =>
    let a := callRemote env w obj (Call.SetActiveConfig pipe.busNum pipe.devAddr (toUInt8 config.id))
    (a.1.status, a.2)

/-- `UsbSrvClient::SetInterface` (lines 277 to 282). -/
def SetInterface (c : Consts) (env : Env) (w : World) (pipe : USBDevicePipe)
    (interface : UsbInterface) : Int × World :=
  match w.proxy_ with
  | none => (c.UEC_INTERFACE_NO_INIT, w)
  | some obj =>
    let a := callRemote env w obj
      (Call.SetInterface pipe.busNum pipe.devAddr (toUInt8 interface.id)
        (toUInt8 interface.alternateSetting))
    (a.1.status, a.2)

/-- `UsbSrvClient::Close` (lines 292 to 297). -/
def Close (c : Consts) (env : Env) (w : World) (pipe : USBDevicePipe) : Bool × World :=
  match w.proxy_ with
  | none => (false, w)
  | some obj =>
    let a := callRemote env w obj (Call.Close pipe.busNum pipe.devAddr)
    (decide (a.1.status = c.UEC_OK), a.2)

/-- Lower-case hexadecimal digits of a byte, as `std::hex` prints an `int`. -/
def hexOf (b : Nat) : String := String.mk (Nat.toDigits 16 b)

/-- What `PrintBuffer` streams into `oss` before it hands the line to the debug
log: the title, the length (in decimal), the bytes of the loop of lines 46 to 48
in hexadecimal, and the raw bytes that `oss << buffer` of line 49 copies. -/
structure BufferLine where
  title : String
  length : Nat
  hexBytes : List String
  text : List Nat
deriving DecidableEq, Repr

/-- `UsbSrvClient::PrintBuffer` (lines 38 to 51).  `title` and `buffer` are `none`
for null pointers; a non-null `buffer` is given by the bytes of the array it
points to.

The result is `none` when the function reads past the end of that array, which
is undefined behaviour.  That happens in the loop when `length` exceeds the
array, and at line 49: `oss << buffer` takes the `const uint8_t *` for a
zero-terminated string and copies bytes until it meets a zero byte, so an array
without a zero byte is read past its end.

Otherwise the result is `some none` when the function returns at line 42, and
`some (some line)` with the line it logs. -/
def PrintBuffer (title : Option String) (buffer : Option (List Nat)) (length : Nat) :
    Option (Option BufferLine) :=
  match title, buffer with
  | some t, some buf =>
    if length = 0 then some none
    else if buf.length < length then none
    else if 0 ∈ buf then
      some (some { title := t, length := length,
                   hexBytes := (buf.take length).map hexOf,
                   text := buf.takeWhile (fun b => b ≠ 0) })
    else none
  | _, _ => some none

/-- `UsbSrvClient::PipeRequestWait` (lines 299 to 319).  The second component is
the request after the call.  The result is `none` when one of the two
`PrintBuffer` calls of lines 316 and 317 reads past the end of its buffer; the
lines they log are not part of the state. -/
def PipeRequestWait (c : Consts) (env : Env) (w : World) (pipe : USBDevicePipe)
    (timeout : Int) (req : UsbRequest) : Option (Int × UsbRequest × World) :=
  match w.proxy_ with
  | none => some (c.UEC_INTERFACE_NO_INIT, req, w)
  | some obj =>
    let cData : List Nat := []
    let vData : List Nat := []
    let tdev : UsbDev := { busNum := pipe.busNum, devAddr := pipe.devAddr }
    let a := callRemote env w obj (Call.RequestWait tdev (toInt32 timeout) cData vData)
    if a.1.status ≠ c.UEC_OK then some (a.1.status, req, a.2)
    else
      let req1 := req.SetPipe pipe
      let req2 := req1.SetClientData a.1.cdata
      let req3 := req2.SetReqData a.1.vdata
      match PrintBuffer (some "UsbSrvClient::PipeRequestWait ClientData")
          (some a.1.cdata) a.1.cdata.length with
      | none => none
      | some _ =>
        match PrintBuffer (some "UsbSrvClient::PipeRequestWait Buffer")
            (some a.1.vdata) a.1.vdata.length with
        | none => none
        | some _ => some (a.1.status, req3, a.2)

/-- The trace `tr` extends the trace of `w` by exactly one service lookup: one
`GetSystemAbilityManager` query and at most one `CheckSystemAbility` query, which
is made when the manager is available. -/
def OneLookup (env : Env) (w : World) (tr : List Event) : Prop :=
  lookups tr = lookups w.trace + 1 ∧ checks tr ≤ checks w.trace + 1 ∧
  (env.samAvailable w.trace = true → checks tr = checks w.trace + 1)

/-- The trace of `w` followed by the two queries of a service lookup. -/
def lookupTrace (c : Consts) (w : World) : List Event :=
  w.trace ++ [Event.GetSystemAbilityManager,
    Event.CheckSystemAbility c.USB_MANAGER_USB_SERVICE_ID]

/-- The state reached from `w` once the handle `h` was dropped by `ResetProxy`, a
lookup found the remote object `obj`, and `call` was made on it. -/
def reconnected (c : Consts) (w : World) (h obj : RemoteObject) (call : Call) : World :=
  { proxy_ := some obj, recipients := w.recipients.erase h,
    trace := lookupTrace c w ++ [Event.Remote obj call] }

/-- The service is registered as remote object 7 and answers every call with
status 0 and two zero-terminated buffers, `[65, 0]` and `[66, 67, 0]`. -/
def terminatedEnv : Env where
  samAvailable := fun _ => true
  checkSystemAbility := fun _ _ => some 7
  reply := fun _ _ _ => { status := 0, cdata := [65, 0], vdata := [66, 67, 0] }

/-! ## Sample worlds and environments -/

/-- A client with no connection and an empty trace. -/
def freshWorld : World := { proxy_ := none, recipients := [], trace := [] }

/-- A client holding the handle 7. -/
def heldWorld : World := { proxy_ := some 7, recipients := [], trace := [] }

/-- The service is registered as remote object 7 and answers every call with
status 0, the context buffer `[1, 2]` and the payload buffer `[3]`. -/
def okEnv : Env where
  samAvailable := fun _ => true
  checkSystemAbility := fun _ _ => some 7
  reply := fun _ _ _ => { status := 0, cdata := [1, 2], vdata := [3] }

/-- The system ability manager is there but the USB service is not registered. -/
def downEnv : Env where
  samAvailable := fun _ => true
  checkSystemAbility := fun _ _ => none
  reply := fun _ _ _ => { status := 0 }

/-! ## Facts about `Connect` and `ResetProxy` -/

/-- With a handle held, `Connect` returns `UEC_OK` at once and changes nothing. -/
theorem Connect_of_held (c : Consts) (env : Env) (w : World) (h : RemoteObject)
    (hp : w.proxy_ = some h) : Connect c env w = (c.UEC_OK, w) := by
  simp [Connect, hp]

/-- The run of `Connect` that finds the service. -/
theorem Connect_found (c : Consts) (env : Env) (w : World) (obj : RemoteObject)
    (hp : w.proxy_ = none) (hsam : env.samAvailable w.trace = true)
    (hchk : env.checkSystemAbility (w.trace ++ [Event.GetSystemAbilityManager])
      c.USB_MANAGER_USB_SERVICE_ID = some obj) :
    Connect c env w = (c.UEC_OK,
      { proxy_ := some obj, recipients := w.recipients,
        trace := w.trace ++ [Event.GetSystemAbilityManager,
          Event.CheckSystemAbility c.USB_MANAGER_USB_SERVICE_ID] }) := by
  simp [Connect, hp, hsam, World.log, hchk]

/-- The run of `Connect` in which the system ability manager is null. -/
theorem Connect_no_sam (c : Consts) (env : Env) (w : World)
    (hp : w.proxy_ = none) (hsam : env.samAvailable w.trace = false) :
    Connect c env w = (c.UEC_INTERFACE_GET_SYSTEM_ABILITY_MANAGER_FAILED,
      { proxy_ := none, recipients := w.recipients,
        trace := w.trace ++ [Event.GetSystemAbilityManager] }) := by
  simp [Connect, hp, hsam, World.log]

/-- The run of `Connect` in which the service is not registered. -/
theorem Connect_no_service (c : Consts) (env : Env) (w : World)
    (hp : w.proxy_ = none) (hsam : env.samAvailable w.trace = true)
    (hchk : env.checkSystemAbility (w.trace ++ [Event.GetSystemAbilityManager])
      c.USB_MANAGER_USB_SERVICE_ID = none) :
    Connect c env w = (c.UEC_INTERFACE_GET_USB_SERVICE_FAILED,
      { proxy_ := none, recipients := w.recipients,
        trace := w.trace ++ [Event.GetSystemAbilityManager,
          Event.CheckSystemAbility c.USB_MANAGER_USB_SERVICE_ID] }) := by
  simp [Connect, hp, hsam, World.log, hchk]

/-- No run of `Connect` registers or removes the death recipient. -/
theorem Connect_recipients (c : Consts) (env : Env) (w : World) :
    (Connect c env w).2.recipients = w.recipients := by
  cases hp : w.proxy_ with
  | some h => rw [Connect_of_held c env w h hp]
  | none =>
    cases hs : env.samAvailable w.trace with
    | false => rw [Connect_no_sam c env w hp hs]
    | true =>
      cases hc : env.checkSystemAbility (w.trace ++ [Event.GetSystemAbilityManager])
          c.USB_MANAGER_USB_SERVICE_ID with
      | none => rw [Connect_no_service c env w hp hs hc]
      | some obj => rw [Connect_found c env w obj hp hs hc]

/-- A `Connect` that returns `UEC_OK` leaves a handle held. -/
theorem Connect_ok_held (c : Consts) (env : Env) (w : World) (hwf : c.ConnectCodesOk)
    (hok : (Connect c env w).1 = c.UEC_OK) : ∃ h, (Connect c env w).2.proxy_ = some h := by
  cases hp : w.proxy_ with
  | some h => rw [Connect_of_held c env w h hp]; exact ⟨h, hp⟩
  | none =>
    cases hs : env.samAvailable w.trace with
    | false =>
      rw [Connect_no_sam c env w hp hs] at hok
      exact absurd hok hwf.1
    | true =>
      cases hc : env.checkSystemAbility (w.trace ++ [Event.GetSystemAbilityManager])
          c.USB_MANAGER_USB_SERVICE_ID with
      | none =>
        rw [Connect_no_service c env w hp hs hc] at hok
        exact absurd hok hwf.2
      | some obj => rw [Connect_found c env w obj hp hs hc]; exact ⟨obj, rfl⟩

/-- A `Connect` that fails leaves no handle and has made no remote call. -/
theorem Connect_fail_trace (c : Consts) (env : Env) (w : World)
    (hfail : (Connect c env w).1 ≠ c.UEC_OK) :
    (Connect c env w).2.proxy_ = none ∧
    remoteCalls (Connect c env w).2.trace = remoteCalls w.trace := by
  cases hp : w.proxy_ with
  | some h => rw [Connect_of_held c env w h hp] at hfail; exact absurd rfl hfail
  | none =>
    cases hs : env.samAvailable w.trace with
    | false =>
      rw [Connect_no_sam c env w hp hs]
      simp [remoteCalls, Event.isRemote]
    | true =>
      cases hc : env.checkSystemAbility (w.trace ++ [Event.GetSystemAbilityManager])
          c.USB_MANAGER_USB_SERVICE_ID with
      | none =>
        rw [Connect_no_service c env w hp hs hc]
        simp [remoteCalls, Event.isRemote]
      | some obj =>
        rw [Connect_found c env w obj hp hs hc] at hfail; exact absurd rfl hfail

/-- With no handle held, `Connect` performs exactly one lookup. -/
theorem Connect_lookups_of_none (c : Consts) (env : Env) (w : World) (hp : w.proxy_ = none) :
    lookups (Connect c env w).2.trace = lookups w.trace + 1 ∧
    checks (Connect c env w).2.trace ≤ checks w.trace + 1 ∧
    (env.samAvailable w.trace = true → checks (Connect c env w).2.trace = checks w.trace + 1) := by
  cases hs : env.samAvailable w.trace with
  | false =>
    rw [Connect_no_sam c env w hp hs]
    simp [lookups, checks, Event.isGetSam, Event.isCheck]
  | true =>
    cases hc : env.checkSystemAbility (w.trace ++ [Event.GetSystemAbilityManager])
        c.USB_MANAGER_USB_SERVICE_ID with
    | none =>
      rw [Connect_no_service c env w hp hs hc]
      simp [lookups, checks, Event.isGetSam, Event.isCheck]
    | some obj =>
      rw [Connect_found c env w obj hp hs hc]
      simp [lookups, checks, Event.isGetSam, Event.isCheck]

/-- The run of `ResetProxy` for the object that is held. -/
theorem ResetProxy_held (w : World) (h : RemoteObject) (hp : w.proxy_ = some h) :
    ResetProxy w (some h) =
      { proxy_ := none, recipients := w.recipients.erase h, trace := w.trace } := by
  simp [ResetProxy, hp, AsObject]

/-! ## Transfer dispatch -/

/-- C1: with a handle held, `BulkTransfer` makes exactly one `BulkTransferRead`
call when the endpoint direction is IN, exactly one `BulkTransferWrite` call when
it is OUT, and for any other direction makes no call at all and returns
`ERR_INVALID_VALUE`.  In the two dispatching cases the status of the remote call
is what is returned. -/
theorem BulkTransfer_dispatch (c : Consts) (env : Env) (w : World) (h : RemoteObject)
    (pipe : USBDevicePipe) (endpoint : USBEndpoint) (vdata : List Nat) (timeout : Int)
    (hp : w.proxy_ = some h) (hdir : c.USB_ENDPOINT_DIR_IN ≠ c.USB_ENDPOINT_DIR_OUT) :
    (endpoint.direction = c.USB_ENDPOINT_DIR_IN →
      (BulkTransfer c env w pipe endpoint vdata timeout).2.2.trace =
        w.trace ++ [Event.Remote h (Call.BulkTransferRead
          { busNum := pipe.busNum, devAddr := pipe.devAddr }
          { interfaceId := endpoint.interfaceId, endpointId := endpoint.address }
          vdata timeout)] ∧
      (BulkTransfer c env w pipe endpoint vdata timeout).1 =
        (env.reply w.trace h (Call.BulkTransferRead
          { busNum := pipe.busNum, devAddr := pipe.devAddr }
          { interfaceId := endpoint.interfaceId, endpointId := endpoint.address }
          vdata timeout)).status) ∧
    (endpoint.direction = c.USB_ENDPOINT_DIR_OUT →
      (BulkTransfer c env w pipe endpoint vdata timeout).2.2.trace =
        w.trace ++ [Event.Remote h (Call.BulkTransferWrite
          { busNum := pipe.busNum, devAddr := pipe.devAddr }
          { interfaceId := endpoint.interfaceId, endpointId := endpoint.address }
          vdata timeout)] ∧
      (BulkTransfer c env w pipe endpoint vdata timeout).1 =
        (env.reply w.trace h (Call.BulkTransferWrite
          { busNum := pipe.busNum, devAddr := pipe.devAddr }
          { interfaceId := endpoint.interfaceId, endpointId := endpoint.address }
          vdata timeout)).status) ∧
    (endpoint.direction ≠ c.USB_ENDPOINT_DIR_IN →
      endpoint.direction ≠ c.USB_ENDPOINT_DIR_OUT →
      BulkTransfer c env w pipe endpoint vdata timeout = (c.ERR_INVALID_VALUE, vdata, w)) := by
  refine ⟨?_, ?_, ?_⟩
  · intro hin
    simp [BulkTransfer, hp, hin, callRemote, World.log]
  · intro hout
    simp [BulkTransfer, hp, hout, hdir, callRemote, World.log]
  · intro hin hout
    have h1 : ¬ c.USB_ENDPOINT_DIR_IN = endpoint.direction := fun e => hin e.symm
    have h2 : ¬ c.USB_ENDPOINT_DIR_OUT = endpoint.direction := fun e => hout e.symm
    simp [BulkTransfer, hp, h1, h2]

/-- Witness of C1: with the handle 7 held, an IN endpoint gives one read call, an
OUT endpoint one write call, and direction 5 gives `ERR_INVALID_VALUE` and no
call. -/
theorem BulkTransfer_dispatch_witness :
    (BulkTransfer sampleConsts okEnv heldWorld ⟨1, 2⟩ ⟨0, 129, 128⟩ [] 1000).2.2.trace =
      [Event.Remote 7 (Call.BulkTransferRead ⟨1, 2⟩ ⟨0, 129⟩ [] 1000)] ∧
    (BulkTransfer sampleConsts okEnv heldWorld ⟨1, 2⟩ ⟨0, 1, 0⟩ [4] 1000).2.2.trace =
      [Event.Remote 7 (Call.BulkTransferWrite ⟨1, 2⟩ ⟨0, 1⟩ [4] 1000)] ∧
    BulkTransfer sampleConsts okEnv heldWorld ⟨1, 2⟩ ⟨0, 1, 5⟩ [4] 1000 = (22, [4], heldWorld) :=
  ⟨((BulkTransfer_dispatch sampleConsts okEnv heldWorld 7 ⟨1, 2⟩ ⟨0, 129, 128⟩ [] 1000 rfl
      (by decide)).1 rfl).1,
   ((BulkTransfer_dispatch sampleConsts okEnv heldWorld 7 ⟨1, 2⟩ ⟨0, 1, 0⟩ [4] 1000 rfl
      (by decide)).2.1 rfl).1,
   (BulkTransfer_dispatch sampleConsts okEnv heldWorld 7 ⟨1, 2⟩ ⟨0, 1, 5⟩ [4] 1000 rfl
      (by decide)).2.2 (by decide) (by decide)⟩

/-- C6: with no handle held, `BulkTransfer` and `ControlTransfer` return
`UEC_INTERFACE_NO_INIT` and leave the whole state as it was, whatever the
environment would answer: no lookup, no remote call, and the handle stays null. -/
theorem transfers_without_connection (c : Consts) (env : Env) (w : World)
    (pipe : USBDevicePipe) (endpoint : USBEndpoint) (ctrl : UsbCtrlTransfer)
    (vdata : List Nat) (timeout : Int) (hp : w.proxy_ = none) :
    BulkTransfer c env w pipe endpoint vdata timeout = (c.UEC_INTERFACE_NO_INIT, vdata, w) ∧
    ControlTransfer c env w pipe ctrl vdata = (c.UEC_INTERFACE_NO_INIT, vdata, w) ∧
    lookups (BulkTransfer c env w pipe endpoint vdata timeout).2.2.trace = lookups w.trace ∧
    lookups (ControlTransfer c env w pipe ctrl vdata).2.2.trace = lookups w.trace ∧
    remoteCalls (BulkTransfer c env w pipe endpoint vdata timeout).2.2.trace
      = remoteCalls w.trace ∧
    remoteCalls (ControlTransfer c env w pipe ctrl vdata).2.2.trace = remoteCalls w.trace ∧
    (BulkTransfer c env w pipe endpoint vdata timeout).2.2.proxy_ = none ∧
    (ControlTransfer c env w pipe ctrl vdata).2.2.proxy_ = none := by
  have hb : BulkTransfer c env w pipe endpoint vdata timeout
      = (c.UEC_INTERFACE_NO_INIT, vdata, w) := by simp [BulkTransfer, hp]
  have hc : ControlTransfer c env w pipe ctrl vdata
      = (c.UEC_INTERFACE_NO_INIT, vdata, w) := by simp [ControlTransfer, hp]
  rw [hb, hc]
  exact ⟨rfl, rfl, rfl, rfl, rfl, rfl, hp, hp⟩

/-- Witness of C6: the service is reachable (`okEnv`), no handle is held, and both
transfers fail locally. -/
theorem transfers_without_connection_witness :
    BulkTransfer sampleConsts okEnv freshWorld ⟨1, 2⟩ ⟨0, 129, 128⟩ [5] 1000
      = (1005, [5], freshWorld) ∧
    ControlTransfer sampleConsts okEnv freshWorld ⟨1, 2⟩ ⟨128, 6, 256, 0, 1000⟩ [5]
      = (1005, [5], freshWorld) :=
  ⟨(transfers_without_connection sampleConsts okEnv freshWorld ⟨1, 2⟩ ⟨0, 129, 128⟩
      ⟨128, 6, 256, 0, 1000⟩ [5] 1000 rfl).1,
   (transfers_without_connection sampleConsts okEnv freshWorld ⟨1, 2⟩ ⟨0, 129, 128⟩
      ⟨128, 6, 256, 0, 1000⟩ [5] 1000 rfl).2.1⟩

/-! ## Pipe operations -/

/-- C7, as stated, fails: with the handle 7 held and a fixed pipe and interface,
`ClaimInterface` with `force = true` issues the very same remote request as with
`force = false`, so the two requests do not differ. -/
theorem ClaimInterface_force_same_request :
    ¬ ((ClaimInterface sampleConsts okEnv heldWorld ⟨1, 2⟩ ⟨3, 0⟩ true).2.trace ≠
       (ClaimInterface sampleConsts okEnv heldWorld ⟨1, 2⟩ ⟨3, 0⟩ false).2.trace) ∧
    (ClaimInterface sampleConsts okEnv heldWorld ⟨1, 2⟩ ⟨3, 0⟩ true).2.trace =
      [Event.Remote 7 (Call.ClaimInterface 1 2 3)] := by
  constructor
  · intro hne; exact hne rfl
  · rfl

/-- C7 amended: `ClaimInterface` does not pass `force` on.  With a handle held it
issues the one request `ClaimInterface(busNum, devAddr, interfaceId)` whatever
`force` is, and its whole result is the same for both values of `force`. -/
theorem ClaimInterface_ignores_force (c : Consts) (env : Env) (w : World) (h : RemoteObject)
    (pipe : USBDevicePipe) (interface : UsbInterface) (force : Bool)
    (hp : w.proxy_ = some h) :
    (ClaimInterface c env w pipe interface force).2.trace =
      w.trace ++ [Event.Remote h
        (Call.ClaimInterface pipe.busNum pipe.devAddr (toUInt8 interface.id))] ∧
    ClaimInterface c env w pipe interface force = ClaimInterface c env w pipe interface false := by
  simp [ClaimInterface, hp, callRemote, World.log]

/-- Witness of the amended C7. -/
theorem ClaimInterface_ignores_force_witness :
    (ClaimInterface sampleConsts okEnv heldWorld ⟨1, 2⟩ ⟨3, 0⟩ true).2.trace =
      heldWorld.trace ++ [Event.Remote 7 (Call.ClaimInterface 1 2 (toUInt8 3))] ∧
    ClaimInterface sampleConsts okEnv heldWorld ⟨1, 2⟩ ⟨3, 0⟩ true =
      ClaimInterface sampleConsts okEnv heldWorld ⟨1, 2⟩ ⟨3, 0⟩ false :=
  ClaimInterface_ignores_force sampleConsts okEnv heldWorld 7 ⟨1, 2⟩ ⟨3, 0⟩ true rfl

/-- C10, as stated, fails: the service is reachable (a `Connect` from this state
would succeed), no handle is held, and `ClaimInterface` performs no lookup, stores
no handle and makes no remote call; it returns `UEC_INTERFACE_NO_INIT`. -/
theorem ClaimInterface_does_not_connect :
    (Connect sampleConsts okEnv freshWorld).1 = sampleConsts.UEC_OK ∧
    (ClaimInterface sampleConsts okEnv freshWorld ⟨1, 2⟩ ⟨3, 0⟩ false).1 =
      sampleConsts.UEC_INTERFACE_NO_INIT ∧
    lookups (ClaimInterface sampleConsts okEnv freshWorld ⟨1, 2⟩ ⟨3, 0⟩ false).2.trace = 0 ∧
    remoteCalls (ClaimInterface sampleConsts okEnv freshWorld ⟨1, 2⟩ ⟨3, 0⟩ false).2.trace = 0 ∧
    (ClaimInterface sampleConsts okEnv freshWorld ⟨1, 2⟩ ⟨3, 0⟩ false).2.proxy_ = none := by
  refine ⟨rfl, rfl, rfl, rfl, rfl⟩

/-- C10 amended: `ClaimInterface`, `ReleaseInterface`, `SetConfiguration`,
`SetInterface` and `Close` do not call `Connect`.  With no handle held each fails
locally, with `UEC_INTERFACE_NO_INIT` (`Close` with `false`), and leaves the whole
state as it was: no lookup, no handle stored, no remote call, whether or not the
service is reachable. -/
theorem pipe_operations_fail_locally (c : Consts) (env : Env) (w : World)
    (pipe : USBDevicePipe) (interface : UsbInterface) (config : USBConfig) (force : Bool)
    (hp : w.proxy_ = none) :
    ClaimInterface c env w pipe interface force = (c.UEC_INTERFACE_NO_INIT, w) ∧
    ReleaseInterface c env w pipe interface = (c.UEC_INTERFACE_NO_INIT, w) ∧
    SetConfiguration c env w pipe config = (c.UEC_INTERFACE_NO_INIT, w) ∧
    SetInterface c env w pipe interface = (c.UEC_INTERFACE_NO_INIT, w) ∧
    Close c env w pipe = (false, w) := by
  simp [ClaimInterface, ReleaseInterface, SetConfiguration, SetInterface, Close, hp]

/-- Witness of the amended C10, with the service reachable. -/
theorem pipe_operations_fail_locally_witness :
    ClaimInterface sampleConsts okEnv freshWorld ⟨1, 2⟩ ⟨3, 0⟩ true = (1005, freshWorld) ∧
    ReleaseInterface sampleConsts okEnv freshWorld ⟨1, 2⟩ ⟨3, 0⟩ = (1005, freshWorld) ∧
    SetConfiguration sampleConsts okEnv freshWorld ⟨1, 2⟩ ⟨1⟩ = (1005, freshWorld) ∧
    SetInterface sampleConsts okEnv freshWorld ⟨1, 2⟩ ⟨3, 0⟩ = (1005, freshWorld) ∧
    Close sampleConsts okEnv freshWorld ⟨1, 2⟩ = (false, freshWorld) :=
  pipe_operations_fail_locally sampleConsts okEnv freshWorld ⟨1, 2⟩ ⟨3, 0⟩ ⟨1⟩ true rfl

/-! ## Request wait -/

/-- An empty buffer makes `PrintBuffer` return before it formats anything. -/
theorem PrintBuffer_empty (title : Option String) (buffer : Option (List Nat)) :
    PrintBuffer title buffer 0 = some none := by
  cases title <;> cases buffer <;> simp [PrintBuffer]

/-- A whole buffer that is empty or holds a zero byte is printed without a read
past its end. -/
theorem PrintBuffer_terminated (t : String) (buf : List Nat) (hb : buf = [] ∨ 0 ∈ buf) :
    ∃ out, PrintBuffer (some t) (some buf) buf.length = some out := by
  by_cases hl : buf.length = 0
  · exact ⟨none, by simp [PrintBuffer, hl]⟩
  · have hz : 0 ∈ buf := by
      rcases hb with hb | hb
      · rw [hb] at hl; exact absurd rfl hl
      · exact hb
    exact ⟨_, by simp [PrintBuffer, hl, hz]; rfl⟩

/-- A whole buffer that is not empty and holds no zero byte is read past its
end by line 49. -/
theorem PrintBuffer_overread (t : String) (buf : List Nat) (hne : buf ≠ []) (hz : ¬ 0 ∈ buf) :
    PrintBuffer (some t) (some buf) buf.length = none := by
  have hl : ¬ buf.length = 0 := fun h => hne (List.length_eq_zero.mp h)
  simp [PrintBuffer, hl, hz]

/-- What `PipeRequestWait` does when no buffer is read past its end: with a handle
held it makes one `RequestWait` call; on `UEC_OK` with buffers that are empty or
hold a zero byte it returns `UEC_OK` and the request has the given pipe and the two
buffers; on another status it returns that status and leaves the request. -/
theorem PipeRequestWait_terminated (c : Consts) (env : Env) (w : World) (h : RemoteObject)
    (pipe : USBDevicePipe) (timeout : Int) (req : UsbRequest) (hp : w.proxy_ = some h) :
    ((env.reply w.trace h (Call.RequestWait
        { busNum := pipe.busNum, devAddr := pipe.devAddr } (toInt32 timeout) [] [])).status
          = c.UEC_OK →
      ((env.reply w.trace h (Call.RequestWait
        { busNum := pipe.busNum, devAddr := pipe.devAddr } (toInt32 timeout) [] [])).cdata = [] ∨
       0 ∈ (env.reply w.trace h (Call.RequestWait
        { busNum := pipe.busNum, devAddr := pipe.devAddr } (toInt32 timeout) [] [])).cdata) →
      ((env.reply w.trace h (Call.RequestWait
        { busNum := pipe.busNum, devAddr := pipe.devAddr } (toInt32 timeout) [] [])).vdata = [] ∨
       0 ∈ (env.reply w.trace h (Call.RequestWait
        { busNum := pipe.busNum, devAddr := pipe.devAddr } (toInt32 timeout) [] [])).vdata) →
      PipeRequestWait c env w pipe timeout req = some (c.UEC_OK,
        { pipe := pipe, ep := req.ep,
          clientData := (env.reply w.trace h (Call.RequestWait
            { busNum := pipe.busNum, devAddr := pipe.devAddr } (toInt32 timeout) [] [])).cdata,
          reqData := (env.reply w.trace h (Call.RequestWait
            { busNum := pipe.busNum, devAddr := pipe.devAddr } (toInt32 timeout) [] [])).vdata },
        w.log (Event.Remote h (Call.RequestWait
          { busNum := pipe.busNum, devAddr := pipe.devAddr } (toInt32 timeout) [] [])))) ∧
    ((env.reply w.trace h (Call.RequestWait
        { busNum := pipe.busNum, devAddr := pipe.devAddr } (toInt32 timeout) [] [])).status
          ≠ c.UEC_OK →
      PipeRequestWait c env w pipe timeout req = some
        ((env.reply w.trace h (Call.RequestWait
          { busNum := pipe.busNum, devAddr := pipe.devAddr } (toInt32 timeout) [] [])).status,
         req,
         w.log (Event.Remote h (Call.RequestWait
          { busNum := pipe.busNum, devAddr := pipe.devAddr } (toInt32 timeout) [] [])))) := by
  constructor
  · intro hs hc hv
    obtain ⟨oc, hoc⟩ := PrintBuffer_terminated "UsbSrvClient::PipeRequestWait ClientData" _ hc
    obtain ⟨ov, hov⟩ := PrintBuffer_terminated "UsbSrvClient::PipeRequestWait Buffer" _ hv
    simp [PipeRequestWait, hp, callRemote, hs, hoc, hov, UsbRequest.SetPipe,
      UsbRequest.SetClientData, UsbRequest.SetReqData]
  · intro hs
    simp [PipeRequestWait, hp, callRemote, hs]

/-- An instance of `PipeRequestWait_terminated`: the service answers `UEC_OK` with
the zero-terminated buffers `[65, 0]` and `[66, 67, 0]`. -/
theorem PipeRequestWait_terminated_example :
    PipeRequestWait sampleConsts terminatedEnv heldWorld ⟨1, 2⟩ 500
        ⟨⟨0, 0⟩, ⟨0, 129, 128⟩, [], []⟩
      = some (0, ⟨⟨1, 2⟩, ⟨0, 129, 128⟩, [65, 0], [66, 67, 0]⟩,
          heldWorld.log (Event.Remote 7 (Call.RequestWait ⟨1, 2⟩ (toInt32 500) [] []))) :=
  (PipeRequestWait_terminated sampleConsts terminatedEnv heldWorld 7 ⟨1, 2⟩ 500
    ⟨⟨0, 0⟩, ⟨0, 129, 128⟩, [], []⟩ rfl).1 rfl (Or.inr (by decide)) (Or.inr (by decide))

/-- C8 fails on the code: with a handle held and the remote `RequestWait` returning
`UEC_OK`, `PipeRequestWait` does not return `UEC_OK` with the two buffers when one
of them is not empty and holds no zero byte: the `PrintBuffer` call of line 316 or
317 reads past the end of that buffer (line 49), which is undefined behaviour. -/
theorem PipeRequestWait_overread (c : Consts) (env : Env) (w : World) (h : RemoteObject)
    (pipe : USBDevicePipe) (timeout : Int) (req : UsbRequest) (hp : w.proxy_ = some h)
    (hs : (env.reply w.trace h (Call.RequestWait
        { busNum := pipe.busNum, devAddr := pipe.devAddr } (toInt32 timeout) [] [])).status
          = c.UEC_OK)
    (hbad :
      ((env.reply w.trace h (Call.RequestWait
        { busNum := pipe.busNum, devAddr := pipe.devAddr } (toInt32 timeout) [] [])).cdata ≠ [] ∧
       ¬ 0 ∈ (env.reply w.trace h (Call.RequestWait
        { busNum := pipe.busNum, devAddr := pipe.devAddr } (toInt32 timeout) [] [])).cdata) ∨
      ((env.reply w.trace h (Call.RequestWait
        { busNum := pipe.busNum, devAddr := pipe.devAddr } (toInt32 timeout) [] [])).vdata ≠ [] ∧
       ¬ 0 ∈ (env.reply w.trace h (Call.RequestWait
        { busNum := pipe.busNum, devAddr := pipe.devAddr } (toInt32 timeout) [] [])).vdata)) :
    PipeRequestWait c env w pipe timeout req = none := by
  rcases hbad with ⟨hne, hz⟩ | ⟨hne, hz⟩
  · have ho := PrintBuffer_overread "UsbSrvClient::PipeRequestWait ClientData" _ hne hz
    simp [PipeRequestWait, hp, callRemote, hs, ho]
  · have ho := PrintBuffer_overread "UsbSrvClient::PipeRequestWait Buffer" _ hne hz
    simp only [PipeRequestWait, hp, callRemote, hs, ne_eq, not_true_eq_false, if_false, ho]
    split <;> rfl

/-- Witness of the C8 defect: the service answers `UEC_OK` with the buffers
`[1, 2]` and `[3]`, neither of which holds a zero byte. -/
theorem PipeRequestWait_overread_witness :
    PipeRequestWait sampleConsts okEnv heldWorld ⟨1, 2⟩ 500 ⟨⟨0, 0⟩, ⟨0, 129, 128⟩, [], []⟩
      = none :=
  PipeRequestWait_overread sampleConsts okEnv heldWorld 7 ⟨1, 2⟩ 500
    ⟨⟨0, 0⟩, ⟨0, 129, 128⟩, [], []⟩ rfl rfl (Or.inl ⟨by decide, by decide⟩)

/-! ## Idempotence of `Connect` -/

/-- C3, as stated, fails: the manager is available but the service is not
registered, no handle is held, and two consecutive `Connect` calls perform two
lookups (two `GetSystemAbilityManager` queries and two `CheckSystemAbility`
queries), not at most one. -/
theorem Connect_twice_two_lookups :
    lookups (Connect sampleConsts downEnv (Connect sampleConsts downEnv freshWorld).2).2.trace
      = 2 ∧
    checks (Connect sampleConsts downEnv (Connect sampleConsts downEnv freshWorld).2).2.trace
      = 2 ∧
    ¬ (lookups (Connect sampleConsts downEnv (Connect sampleConsts downEnv freshWorld).2).2.trace
      ≤ lookups freshWorld.trace + 1) := by
  refine ⟨rfl, rfl, ?_⟩
  decide

/-- C3 amended: when the first of two consecutive `Connect` calls returns `UEC_OK`,
the second performs no lookup, returns `UEC_OK` and leaves the state unchanged, so
the two calls perform at most one lookup in total.  A `Connect` call made while a
handle is held performs no lookup, returns `UEC_OK` and leaves the handle
unchanged.  (After a failed `Connect` the next one looks the service up again.) -/
theorem Connect_idempotent_after_success (c : Consts) (env : Env) (w : World)
    (hwf : c.ConnectCodesOk) (hok : (Connect c env w).1 = c.UEC_OK) :
    Connect c env (Connect c env w).2 = (c.UEC_OK, (Connect c env w).2) ∧
    lookups (Connect c env (Connect c env w).2).2.trace ≤ lookups w.trace + 1 ∧
    checks (Connect c env (Connect c env w).2).2.trace ≤ checks w.trace + 1 ∧
    (∀ h, w.proxy_ = some h → Connect c env w = (c.UEC_OK, w)) := by
  obtain ⟨h1, hh1⟩ := Connect_ok_held c env w hwf hok
  have h2 : Connect c env (Connect c env w).2 = (c.UEC_OK, (Connect c env w).2) :=
    Connect_of_held c env _ h1 hh1
  refine ⟨h2, ?_, ?_, fun h hp => Connect_of_held c env w h hp⟩
  · rw [h2]
    cases hp : w.proxy_ with
    | some h => rw [Connect_of_held c env w h hp]; exact Nat.le_succ _
    | none => exact le_of_eq (Connect_lookups_of_none c env w hp).1
  · rw [h2]
    cases hp : w.proxy_ with
    | some h => rw [Connect_of_held c env w h hp]; exact Nat.le_succ _
    | none => exact (Connect_lookups_of_none c env w hp).2.1

/-- Witness of the amended C3: the service is reachable, the first `Connect` finds
it, the second does nothing. -/
theorem Connect_idempotent_after_success_witness :
    Connect sampleConsts okEnv (Connect sampleConsts okEnv freshWorld).2
      = (sampleConsts.UEC_OK, (Connect sampleConsts okEnv freshWorld).2) ∧
    lookups (Connect sampleConsts okEnv (Connect sampleConsts okEnv freshWorld).2).2.trace
      ≤ lookups freshWorld.trace + 1 :=
  ⟨(Connect_idempotent_after_success sampleConsts okEnv freshWorld (by decide) rfl).1,
   (Connect_idempotent_after_success sampleConsts okEnv freshWorld (by decide) rfl).2.1⟩

/-! ## Death recipient -/

/-- C5 fails on the code: starting with no handle and a successful lookup,
`Connect` returns `UEC_OK` and holds the new handle 7, but the death recipient is
registered on no remote object; the handle 7 is held without it. -/
theorem Connect_registers_no_recipient :
    (Connect sampleConsts okEnv freshWorld).1 = sampleConsts.UEC_OK ∧
    (Connect sampleConsts okEnv freshWorld).2.proxy_ = some 7 ∧
    (Connect sampleConsts okEnv freshWorld).2.recipients = [] ∧
    ¬ (7 ∈ (Connect sampleConsts okEnv freshWorld).2.recipients) := by
  refine ⟨rfl, rfl, rfl, ?_⟩
  rw [Connect_recipients]
  simp [freshWorld]

/-! ## Operations without a reachable service -/

/-- The ten status-returning operations that connect first and return
`UEC_INTERFACE_NO_INIT` when `Connect` fails: the state is the one `Connect` left,
with no handle and no remote call made. -/
theorem connecting_operations_no_init (c : Consts) (env : Env) (w : World)
    (hfail : (Connect c env w).1 ≠ c.UEC_OK)
    (device : UsbDevice) (pipe : USBDevicePipe) (name : String)
    (deviceList : List UsbDevice) (funcs : Int) (text : String) (ports : List UsbPort)
    (portId result powerRole dataRole : Int) :
    OpenDevice c env w device pipe = some (c.UEC_INTERFACE_NO_INIT, pipe, (Connect c env w).2) ∧
    HasRight c env w name = some (c.UEC_INTERFACE_NO_INIT, (Connect c env w).2) ∧
    RequestRight c env w name = some (c.UEC_INTERFACE_NO_INIT, (Connect c env w).2) ∧
    RemoveRight c env w name = some (c.UEC_INTERFACE_NO_INIT, (Connect c env w).2) ∧
    GetDevices c env w deviceList
      = some (c.UEC_INTERFACE_NO_INIT, deviceList, (Connect c env w).2) ∧
    GetCurrentFunctions c env w funcs
      = some (c.UEC_INTERFACE_NO_INIT, funcs, (Connect c env w).2) ∧
    UsbFunctionsFromString c env w text = some (c.UEC_INTERFACE_NO_INIT, (Connect c env w).2) ∧
    GetPorts c env w ports = some (c.UEC_INTERFACE_NO_INIT, ports, (Connect c env w).2) ∧
    GetSupportedModes c env w portId result
      = some (c.UEC_INTERFACE_NO_INIT, result, (Connect c env w).2) ∧
    SetPortRole c env w portId powerRole dataRole
      = some (c.UEC_INTERFACE_NO_INIT, (Connect c env w).2) ∧
    remoteCalls (Connect c env w).2.trace = remoteCalls w.trace := by
  refine ⟨?_, ?_, ?_, ?_, ?_, ?_, ?_, ?_, ?_, ?_, (Connect_fail_trace c env w hfail).2⟩
  · simp [OpenDevice, hfail]
  · simp [HasRight, hfail]
  · simp [RequestRight, hfail]
  · simp [RemoveRight, hfail]
  · simp [GetDevices, hfail]
  · simp [GetCurrentFunctions, hfail]
  · simp [UsbFunctionsFromString, hfail]
  · simp [GetPorts, hfail]
  · simp [GetSupportedModes, hfail]
  · simp [SetPortRole, hfail]

/-- C2 fails on the code for `SetCurrentFunctions`: when `Connect` does not return
`UEC_OK`, `SetCurrentFunctions` makes no remote call and returns 0 (the `false` of
line 163), not `UEC_INTERFACE_NO_INIT`; with `UEC_OK = 0` the value returned is
the success status itself. -/
theorem SetCurrentFunctions_no_connection (c : Consts) (env : Env) (w : World) (funcs : Int)
    (hfail : (Connect c env w).1 ≠ c.UEC_OK) (hzero : c.UEC_OK = 0) :
    SetCurrentFunctions c env w funcs = some (c.UEC_OK, (Connect c env w).2) ∧
    remoteCalls (Connect c env w).2.trace = remoteCalls w.trace ∧
    (c.UEC_INTERFACE_NO_INIT ≠ c.UEC_OK →
      SetCurrentFunctions c env w funcs
        ≠ some (c.UEC_INTERFACE_NO_INIT, (Connect c env w).2)) := by
  have hs : SetCurrentFunctions c env w funcs = some (c.UEC_OK, (Connect c env w).2) := by
    unfold SetCurrentFunctions
    rw [if_pos hfail, hzero]
  refine ⟨hs, (Connect_fail_trace c env w hfail).2, ?_⟩
  intro hne heq
  rw [hs] at heq
  injection heq with heq
  injection heq with h1 _
  exact hne h1.symm

/-- Witness of the `SetCurrentFunctions` defect: the service is not registered, no
handle is held, and the call returns 0. -/
theorem SetCurrentFunctions_no_connection_witness :
    SetCurrentFunctions sampleConsts downEnv freshWorld 3
      = some (0, (Connect sampleConsts downEnv freshWorld).2) ∧
    remoteCalls (Connect sampleConsts downEnv freshWorld).2.trace
      = remoteCalls freshWorld.trace :=
  ⟨(SetCurrentFunctions_no_connection sampleConsts downEnv freshWorld 3 (by decide) rfl).1,
   (SetCurrentFunctions_no_connection sampleConsts downEnv freshWorld 3 (by decide) rfl).2.1⟩

/-! ## Opening a device -/

/-- C9: when `Connect` succeeds, `OpenDevice` returns, after exactly one remote
`OpenDevice` call carrying the bus number and device address of the device.  If
the remote status is `UEC_OK`, the result is `UEC_OK` and the pipe has the bus
number and device address of the device; otherwise the result is the remote
status and the pipe is as it was. -/
theorem OpenDevice_result (c : Consts) (env : Env) (w : World) (device : UsbDevice)
    (pipe : USBDevicePipe) (hwf : c.ConnectCodesOk) (hok : (Connect c env w).1 = c.UEC_OK) :
    ∃ h r, (Connect c env w).2.proxy_ = some h ∧
      OpenDevice c env w device pipe = some r ∧
      r.2.2.trace = (Connect c env w).2.trace ++
        [Event.Remote h (Call.OpenDevice device.busNum device.devAddr)] ∧
      ((env.reply (Connect c env w).2.trace h
          (Call.OpenDevice device.busNum device.devAddr)).status = c.UEC_OK →
        r.1 = c.UEC_OK ∧ r.2.1.busNum = device.busNum ∧ r.2.1.devAddr = device.devAddr) ∧
      ((env.reply (Connect c env w).2.trace h
          (Call.OpenDevice device.busNum device.devAddr)).status ≠ c.UEC_OK →
        r.1 = (env.reply (Connect c env w).2.trace h
          (Call.OpenDevice device.busNum device.devAddr)).status ∧ r.2.1 = pipe) := by
  obtain ⟨h, hh⟩ := Connect_ok_held c env w hwf hok
  by_cases hs : (env.reply (Connect c env w).2.trace h
      (Call.OpenDevice device.busNum device.devAddr)).status = c.UEC_OK
  · refine ⟨h, (c.UEC_OK, { pipe with busNum := device.busNum, devAddr := device.devAddr },
      (Connect c env w).2.log (Event.Remote h (Call.OpenDevice device.busNum device.devAddr))),
      hh, ?_, rfl, fun _ => ⟨rfl, rfl, rfl⟩, fun hne => absurd hs hne⟩
    simp [OpenDevice, hok, hh, callRemote, hs]
  · refine ⟨h, ((env.reply (Connect c env w).2.trace h
        (Call.OpenDevice device.busNum device.devAddr)).status, pipe,
      (Connect c env w).2.log (Event.Remote h (Call.OpenDevice device.busNum device.devAddr))),
      hh, ?_, rfl, fun he => absurd he hs, fun _ => ⟨rfl, rfl⟩⟩
    simp [OpenDevice, hok, hh, callRemote, hs]

/-- Witness of C9: the service accepts the call, and the pipe takes bus 1,
address 2. -/
theorem OpenDevice_result_witness :
    ∃ h r, (Connect sampleConsts okEnv freshWorld).2.proxy_ = some h ∧
      OpenDevice sampleConsts okEnv freshWorld ⟨1, 2⟩ ⟨0, 0⟩ = some r ∧
      r.2.2.trace = (Connect sampleConsts okEnv freshWorld).2.trace ++
        [Event.Remote h (Call.OpenDevice 1 2)] :=
  match OpenDevice_result sampleConsts okEnv freshWorld ⟨1, 2⟩ ⟨0, 0⟩ (by decide) rfl with
  | ⟨h, r, h1, h2, h3, _⟩ => ⟨h, r, h1, h2, h3⟩

/-! ## Reconnecting after a death notification -/

/-- A remote call is not a lookup. -/
theorem lookups_append_remote (tr : List Event) (obj : RemoteObject) (call : Call) :
    lookups (tr ++ [Event.Remote obj call]) = lookups tr ∧
    checks (tr ++ [Event.Remote obj call]) = checks tr := by
  simp [lookups, checks, Event.isGetSam, Event.isCheck]

/-- C4: after `ResetProxy` with the handle that is held, the handle is null.  The
next call of any operation that connects first (`OpenDevice`, `HasRight`,
`RequestRight`, `RemoveRight`, `GetDevices`, `GetCurrentFunctions`,
`SetCurrentFunctions`, `UsbFunctionsFromString`, `UsbFunctionsToString`,
`GetPorts`, `GetSupportedModes`, `SetPortRole`) then returns after exactly one
service lookup.  If the lookup finds the service, the operation holds the new
handle afterwards, has made its one call on the new remote object, and returns
what that call gave (for `OpenDevice` the pipe is set when the status is
`UEC_OK`). -/
theorem reconnect_after_ResetProxy (c : Consts) (env : Env) (w : World) (h : RemoteObject)
    (hp : w.proxy_ = some h) (hwf : c.ConnectCodesOk) :
    (ResetProxy w (some h)).proxy_ = none ∧
    (∀ device pipe, ∃ r, OpenDevice c env (ResetProxy w (some h)) device pipe = some r ∧
      OneLookup env w r.2.2.trace) ∧
    (∀ name, ∃ r, HasRight c env (ResetProxy w (some h)) name = some r ∧
      OneLookup env w r.2.trace) ∧
    (∀ name, ∃ r, RequestRight c env (ResetProxy w (some h)) name = some r ∧
      OneLookup env w r.2.trace) ∧
    (∀ name, ∃ r, RemoveRight c env (ResetProxy w (some h)) name = some r ∧
      OneLookup env w r.2.trace) ∧
    (∀ deviceList, ∃ r, GetDevices c env (ResetProxy w (some h)) deviceList = some r ∧
      OneLookup env w r.2.2.trace) ∧
    (∀ funcs, ∃ r, GetCurrentFunctions c env (ResetProxy w (some h)) funcs = some r ∧
      OneLookup env w r.2.2.trace) ∧
    (∀ funcs, ∃ r, SetCurrentFunctions c env (ResetProxy w (some h)) funcs = some r ∧
      OneLookup env w r.2.trace) ∧
    (∀ text, ∃ r, UsbFunctionsFromString c env (ResetProxy w (some h)) text = some r ∧
      OneLookup env w r.2.trace) ∧
    (∀ funcs, ∃ r, UsbFunctionsToString c env (ResetProxy w (some h)) funcs = some r ∧
      OneLookup env w r.2.trace) ∧
    (∀ ports, ∃ r, GetPorts c env (ResetProxy w (some h)) ports = some r ∧
      OneLookup env w r.2.2.trace) ∧
    (∀ portId result, ∃ r, GetSupportedModes c env (ResetProxy w (some h)) portId result = some r ∧
      OneLookup env w r.2.2.trace) ∧
    (∀ portId powerRole dataRole, ∃ r, SetPortRole c env (ResetProxy w (some h)) portId powerRole dataRole = some r ∧
      OneLookup env w r.2.trace) ∧
    (∀ obj, env.samAvailable w.trace = true →
      env.checkSystemAbility (w.trace ++ [Event.GetSystemAbilityManager])
        c.USB_MANAGER_USB_SERVICE_ID = some obj →
      (∀ device pipe, OpenDevice c env (ResetProxy w (some h)) device pipe = some
        ((env.reply (lookupTrace c w) obj (Call.OpenDevice device.busNum device.devAddr)).status,
          if (env.reply (lookupTrace c w) obj (Call.OpenDevice device.busNum device.devAddr)).status = c.UEC_OK then
            ({ busNum := device.busNum, devAddr := device.devAddr } : USBDevicePipe)
          else pipe,
          reconnected c w h obj (Call.OpenDevice device.busNum device.devAddr))) ∧
      (∀ name, HasRight c env (ResetProxy w (some h)) name = some
        ((env.reply (lookupTrace c w) obj (Call.HasRight name)).status, reconnected c w h obj (Call.HasRight name))) ∧
      (∀ name, RequestRight c env (ResetProxy w (some h)) name = some
        ((env.reply (lookupTrace c w) obj (Call.RequestRight name)).status, reconnected c w h obj (Call.RequestRight name))) ∧
      (∀ name, RemoveRight c env (ResetProxy w (some h)) name = some
        ((env.reply (lookupTrace c w) obj (Call.RemoveRight name)).status, reconnected c w h obj (Call.RemoveRight name))) ∧
      (∀ deviceList, GetDevices c env (ResetProxy w (some h)) deviceList = some
        ((env.reply (lookupTrace c w) obj (Call.GetDevices deviceList)).status, (env.reply (lookupTrace c w) obj (Call.GetDevices deviceList)).devices, reconnected c w h obj (Call.GetDevices deviceList))) ∧
      (∀ funcs, GetCurrentFunctions c env (ResetProxy w (some h)) funcs = some
        ((env.reply (lookupTrace c w) obj (Call.GetCurrentFunctions funcs)).status, (env.reply (lookupTrace c w) obj (Call.GetCurrentFunctions funcs)).value, reconnected c w h obj (Call.GetCurrentFunctions funcs))) ∧
      (∀ funcs, SetCurrentFunctions c env (ResetProxy w (some h)) funcs = some
        ((env.reply (lookupTrace c w) obj (Call.SetCurrentFunctions funcs)).status, reconnected c w h obj (Call.SetCurrentFunctions funcs))) ∧
      (∀ text, UsbFunctionsFromString c env (ResetProxy w (some h)) text = some
        ((env.reply (lookupTrace c w) obj (Call.UsbFunctionsFromString text)).status, reconnected c w h obj (Call.UsbFunctionsFromString text))) ∧
      (∀ funcs, UsbFunctionsToString c env (ResetProxy w (some h)) funcs = some
        ((env.reply (lookupTrace c w) obj (Call.UsbFunctionsToString funcs)).text, reconnected c w h obj (Call.UsbFunctionsToString funcs))) ∧
      (∀ ports, GetPorts c env (ResetProxy w (some h)) ports = some
        ((env.reply (lookupTrace c w) obj (Call.GetPorts ports)).status, (env.reply (lookupTrace c w) obj (Call.GetPorts ports)).ports, reconnected c w h obj (Call.GetPorts ports))) ∧
      (∀ portId result, GetSupportedModes c env (ResetProxy w (some h)) portId result = some
        ((env.reply (lookupTrace c w) obj (Call.GetSupportedModes portId result)).status, (env.reply (lookupTrace c w) obj (Call.GetSupportedModes portId result)).value, reconnected c w h obj (Call.GetSupportedModes portId result))) ∧
      (∀ portId powerRole dataRole, SetPortRole c env (ResetProxy w (some h)) portId powerRole dataRole = some
        ((env.reply (lookupTrace c w) obj (Call.SetPortRole portId powerRole dataRole)).status, reconnected c w h obj (Call.SetPortRole portId powerRole dataRole)))) := by
  have hr := ResetProxy_held w h hp
  generalize ResetProxy w (some h) = w0 at hr ⊢
  have hp0 : w0.proxy_ = none := by rw [hr]
  have ht0 : w0.trace = w.trace := by rw [hr]
  have hrec : w0.recipients = w.recipients.erase h := by rw [hr]
  refine ⟨hp0, ?_⟩
  cases hs : env.samAvailable w.trace with
  | false =>
    have hc := Connect_no_sam c env w0 hp0 (by rw [ht0]; exact hs)
    rw [ht0] at hc
    simp [OpenDevice, HasRight, RequestRight, RemoveRight, GetDevices, GetCurrentFunctions, SetCurrentFunctions, UsbFunctionsFromString, UsbFunctionsToString, GetPorts, GetSupportedModes, SetPortRole, hc, hwf.1, OneLookup, lookups, checks,
      Event.isGetSam, Event.isCheck, hs]
  | true =>
    cases hk : env.checkSystemAbility (w.trace ++ [Event.GetSystemAbilityManager])
        c.USB_MANAGER_USB_SERVICE_ID with
    | none =>
      have hc := Connect_no_service c env w0 hp0 (by rw [ht0]; exact hs)
        (by rw [ht0]; exact hk)
      rw [ht0] at hc
      simp [OpenDevice, HasRight, RequestRight, RemoveRight, GetDevices, GetCurrentFunctions, SetCurrentFunctions, UsbFunctionsFromString, UsbFunctionsToString, GetPorts, GetSupportedModes, SetPortRole, hc, hwf.2, OneLookup, lookups, checks,
        Event.isGetSam, Event.isCheck, hs]
    | some obj =>
      have hc := Connect_found c env w0 obj hp0 (by rw [ht0]; exact hs)
        (by rw [ht0]; exact hk)
      rw [ht0, hrec] at hc
      have hopen : ∀ device pipe, OpenDevice c env w0 device pipe = some
          ((env.reply (lookupTrace c w) obj
              (Call.OpenDevice device.busNum device.devAddr)).status,
            if (env.reply (lookupTrace c w) obj
              (Call.OpenDevice device.busNum device.devAddr)).status = c.UEC_OK then
              ({ busNum := device.busNum, devAddr := device.devAddr } : USBDevicePipe)
            else pipe,
            reconnected c w h obj (Call.OpenDevice device.busNum device.devAddr)) := by
        intro device pipe
        by_cases hst : (env.reply (lookupTrace c w) obj
            (Call.OpenDevice device.busNum device.devAddr)).status = c.UEC_OK
        · have hst2 := hst
          unfold lookupTrace at hst2
          simp [OpenDevice, hc, callRemote, World.log, reconnected, lookupTrace, hst2]
        · have hst2 := hst
          unfold lookupTrace at hst2
          simp [OpenDevice, hc, callRemote, World.log, reconnected, lookupTrace, hst2]
      refine ⟨?_, ?_, ?_, ?_, ?_, ?_, ?_, ?_, ?_, ?_, ?_, ?_, ?_⟩
      · intro device pipe
        refine ⟨_, hopen device pipe, ?_⟩
        simp [reconnected, lookupTrace, OneLookup, lookups, checks, Event.isGetSam,
          Event.isCheck]
      case refine_13 =>
        intro obj1 _ hk1
        have ho : obj = obj1 := Option.some.inj hk1
        subst ho
        refine ⟨hopen, ?_⟩
        simp [OpenDevice, HasRight, RequestRight, RemoveRight, GetDevices, GetCurrentFunctions, SetCurrentFunctions, UsbFunctionsFromString, UsbFunctionsToString, GetPorts, GetSupportedModes, SetPortRole, hc, callRemote, World.log, reconnected,
          lookupTrace]
      all_goals
        simp [OpenDevice, HasRight, RequestRight, RemoveRight, GetDevices, GetCurrentFunctions, SetCurrentFunctions, UsbFunctionsFromString, UsbFunctionsToString, GetPorts, GetSupportedModes, SetPortRole, hc, callRemote, World.log, OneLookup,
          lookups, checks, Event.isGetSam, Event.isCheck, hs]

/-- Witness of C4: the handle 7 is dropped by `ResetProxy`, and the next `HasRight`
looks the service up once, holds the new handle and returns the status 0 the
service gave. -/
theorem reconnect_after_ResetProxy_witness :
    (ResetProxy heldWorld (some 7)).proxy_ = none ∧
    HasRight sampleConsts okEnv (ResetProxy heldWorld (some 7)) "bus1-dev2" = some
      (0, { proxy_ := some 7, recipients := [],
            trace := [Event.GetSystemAbilityManager, Event.CheckSystemAbility 4201,
              Event.Remote 7 (Call.HasRight "bus1-dev2")] }) :=
  ⟨(reconnect_after_ResetProxy sampleConsts okEnv heldWorld 7 rfl (by decide)).1,
   ((reconnect_after_ResetProxy sampleConsts okEnv heldWorld 7 rfl
      (by decide)).2.2.2.2.2.2.2.2.2.2.2.2.2 7 rfl rfl).2.1 "bus1-dev2"⟩

end UsbSrvClient
